import Mathlib

/-!
Shallow embedding of the murmur voice-dictation daemon
(`murmur_daemon/audio_capture.py`, `murmur_daemon/daemon.py`,
`whisper_daemon/text_injector.py`, `whisper_daemon/ipc_server.py`)
together with proofs of the specification claims about it.

External collaborators (the sounddevice stream, the webrtcvad classifier,
the faster-whisper transcription engine, pyperclip and ydotool) are
modelled as explicit environment values passed to each operation; the
repository's own control flow is translated statement by statement.
-/

namespace Murmur

/-! ## Python string semantics used by the daemon -/

/-- Truthiness of a Python string: non-empty. -/
def pyTruthy (s : String) : Bool := s ≠ ""

/-- Python `str.split()` with no separator: split on whitespace runs,
dropping empty pieces. -/
def pySplitWhite (s : String) : List String :=
  (s.split Char.isWhitespace).filter (fun t => t ≠ "")

/-- `len(transcription.split()) if transcription else 0`
(daemon.py line 260). -/
def pyWordCount (t : String) : Nat :=
  if pyTruthy t then (pySplitWhite t).length else 0

/-! ## Voice-Activity Gate (`AudioCapture._contains_voice`)

`audio_capture.py` lines 216-255.  Samples are mono floats, modelled as
rationals; the conversion `(audio_array * 32767).astype(np.int16)` is the
composition of truncation towards zero with int16 wrap-around.  The
external webrtcvad classifier `self.vad.is_speech(frame_bytes, rate)` is a
parameter `classify : List Int → Option Bool`; `none` models a raised
exception on that frame. -/

/-- Wrap an integer into the int16 range, as numpy `astype(np.int16)` does. -/
def wrapInt16 (n : Int) : Int :=
  ((n + 32768) % 65536) - 32768

/-- `(x * 32767).astype(np.int16)` for one sample: multiply by 32767,
truncate towards zero (the C cast; `Int.tdiv` truncates towards zero) and
wrap into the int16 range. -/
def toInt16 (x : Rat) : Int :=
  wrapInt16 (Int.tdiv (x.num * 32767) (x.den : Int))

/-- Number of iterations of `range(0, len(audio) - frame_samples,
frame_samples)` (audio_capture.py line 234).  Natural subtraction matches
Python: a non-positive stop gives an empty range. -/
def numVadFrames (len fs : Nat) : Nat :=
  (len - fs + (fs - 1)) / fs

/-- The frames the loop at line 234 visits: slices of length `fs`
starting at `0, fs, 2*fs, ...` strictly below `len - fs`. -/
def framesOf (a : List Int) (fs : Nat) : List (List Int) :=
  (List.range' 0 (numVadFrames a.length fs) fs).map
    (fun i => (a.drop i).take fs)

/-- The loop body at lines 234-248: on classifier success increment
`frame_count` (and `voiced_count` when voiced); on a raised exception
`continue` without touching either counter.  Accumulator is
`(frame_count, voiced_count)`. -/
def classifyFrames (classify : List Int → Option Bool)
    (frames : List (List Int)) : Nat × Nat :=
  frames.foldl
    (fun acc f =>
      match classify f with
      | some true => (acc.1 + 1, acc.2 + 1)
      | some false => (acc.1 + 1, acc.2)
      | none => acc)
    (0, 0)

/-- Lifetime diagnostic counters `self.total_frames` / `self.voiced_frames`. -/
structure VadStats where
  totalFrames : Nat
  voicedFrames : Nat
  deriving Repr, DecidableEq

/-- `AudioCapture._contains_voice` (lines 216-255): returns the chunk
decision together with the updated lifetime counters. -/
def containsVoice (stats : VadStats) (classify : List Int → Option Bool)
    (audio : List Rat) (frameSamples : Nat) : Bool × VadStats :=
  let a16 := audio.map toInt16
  let counts := classifyFrames classify (framesOf a16 frameSamples)
  let stats' : VadStats :=
    ⟨stats.totalFrames + counts.1, stats.voicedFrames + counts.2⟩
  let accepted :=
    if counts.1 = 0 then false
    else decide (Rat.divInt 15 100 ≤ Rat.divInt (counts.2 : Int) (counts.1 : Int))
  (accepted, stats')

/-- `frame_count` of a chunk: frames whose classification succeeded. -/
def vadFrameCount (classify : List Int → Option Bool)
    (audio : List Rat) (fs : Nat) : Nat :=
  (classifyFrames classify (framesOf (audio.map toInt16) fs)).1

/-- `voiced_count` of a chunk: frames classified as speech. -/
def vadVoicedCount (classify : List Int → Option Bool)
    (audio : List Rat) (fs : Nat) : Nat :=
  (classifyFrames classify (framesOf (audio.map toInt16) fs)).2

/-- `voice_ratio = voiced_count / frame_count` (line 254), as the exact
rational quotient. -/
def vadFrac (classify : List Int → Option Bool)
    (audio : List Rat) (fs : Nat) : Rat :=
  Rat.divInt (vadVoicedCount classify audio fs : Int)
    (vadFrameCount classify audio fs : Int)

/-- Modelled from the spec claim, for comparison with the source: the
counting rule in which a per-frame classifier failure is counted as a
non-voiced frame, contributing to the denominator of the ratio. -/
def classifyFramesSpec (classify : List Int → Option Bool)
    (frames : List (List Int)) : Nat × Nat :=
  frames.foldl
    (fun acc f =>
      match classify f with
      | some true => (acc.1 + 1, acc.2 + 1)
      | some false => (acc.1 + 1, acc.2)
      | none => (acc.1 + 1, acc.2))
    (0, 0)

/-- Modelled from the spec claim: the chunk decision under the claimed
counting rule (failures in the denominator). -/
def containsVoiceSpec (classify : List Int → Option Bool)
    (audio : List Rat) (frameSamples : Nat) : Bool :=
  let counts := classifyFramesSpec classify (framesOf (audio.map toInt16) frameSamples)
  if counts.1 = 0 then false
  else decide (Rat.divInt 15 100 ≤ Rat.divInt (counts.2 : Int) (counts.1 : Int))

/-! ## Audio Capture Engine (`AudioCapture`, batch mode)

`audio_capture.py` lines 91-183.  The orchestrator registers no chunk
callback, so no processing thread runs: the model covers batch mode.
Opening and closing the sounddevice stream are external operations whose
outcome (`Except String Unit`, error = raised exception) is an environment
parameter. -/

/-- The capture fields mutated by `start` / `stop` / `_audio_callback`. -/
structure CaptureState where
  recording : Bool
  audioBuffer : List Rat
  startTime : Rat
  totalChunks : Nat
  voicedFrames : Nat
  totalFrames : Nat
  streamOpen : Bool
  deriving Repr, DecidableEq

/-- Capture state at construction (`AudioCapture.__init__`). -/
def initCapture : CaptureState :=
  ⟨false, [], 0, 0, 0, 0, false⟩

/-- Result of one `AudioCapture.start()` call: the new state, the raised
exception if any, and whether a new input stream was constructed. -/
structure CaptureStartOutcome where
  state : CaptureState
  raised : Option String
  streamOpened : Bool
  deriving Repr, DecidableEq

/-- `AudioCapture.start` (lines 91-129).  An already-running capture
returns at once (lines 93-95); otherwise the buffer and statistics are
reset and the stream is opened, a failure of which clears `recording` and
re-raises. -/
def captureStart (s : CaptureState) (now : Rat)
    (openStream : Except String Unit) : CaptureStartOutcome :=
  if s.recording then ⟨s, none, false⟩
  else
    let s1 : CaptureState :=
      { s with recording := true, audioBuffer := [], startTime := now,
               totalChunks := 0, voicedFrames := 0, totalFrames := 0 }
    match openStream with
    | .ok _ => ⟨{ s1 with streamOpen := true }, none, true⟩
    | .error e => ⟨{ s1 with recording := false }, some e, true⟩

/-- `AudioCapture._audio_callback` (lines 163-183) in batch mode: when not
recording the data is dropped, otherwise it is appended to the shared
buffer.  The waveform sink is notification-only and cannot affect state
(its failures are caught at line 182). -/
def audioCallback (s : CaptureState) (indata : List Rat) : CaptureState :=
  if s.recording then { s with audioBuffer := s.audioBuffer ++ indata }
  else s

/-- `AudioCapture.stop` (lines 131-161): clear `recording`, close the
stream (a raised close propagates before the buffer is read), and return
the buffered samples.  The buffer itself is not cleared here; `start`
resets it. -/
def captureStop (s : CaptureState) (closeStream : Except String Unit) :
    CaptureState × Except String (List Rat) :=
  let s1 := { s with recording := false }
  if s1.streamOpen then
    match closeStream with
    | .error e => (s1, .error e)
    | .ok _ =>
      let s2 := { s1 with streamOpen := false }
      (s2, .ok s2.audioBuffer)
  else (s1, .ok s1.audioBuffer)

/-! ## Insertion Chain (`TextInjector`)

`text_injector.py` lines 26-211.  The three private delivery methods each
catch every exception of their own body and return a boolean, so the
environment of one `insert_text` call is the success of each underlying
delivery mechanism; `_check_ydotool` is probed once at construction and
cached as a field. -/

/-- `InsertionMethod` enum (text_injector.py lines 15-20). -/
inductive InsertionMethod where
  | direct
  | auto_paste
  | clipboard
  deriving Repr, DecidableEq

/-- The `.value` of an `InsertionMethod`. -/
def InsertionMethod.value : InsertionMethod → String
  | .direct => "direct"
  | .auto_paste => "auto_paste"
  | .clipboard => "clipboard"

/-- The `TextInjector` fields. -/
structure InjectorState where
  preferredMethod : String
  ydotoolAvailable : Bool
  lastMethodUsed : Option InsertionMethod
  deriving Repr, DecidableEq

/-- Outcomes of the underlying delivery mechanisms for one call:
whether the body of `_insert_direct` / `_insert_auto_paste` /
`_insert_clipboard` (clipboard copy and key synthesis) succeeds. -/
structure InjectorEnv where
  directOk : Bool
  autoPasteOk : Bool
  clipboardOk : Bool
  deriving Repr, DecidableEq

/-- One attempt of a method (lines 120-211): result and whether the
underlying delivery mechanism was invoked at all.  `_insert_direct` and
`_insert_auto_paste` return `False` before touching anything when ydotool
is absent (lines 129-130, 166-167). -/
def attemptMethod (st : InjectorState) (env : InjectorEnv) :
    InsertionMethod → Bool × Bool
  | .direct => if st.ydotoolAvailable then (env.directOk, true) else (false, false)
  | .auto_paste => if st.ydotoolAvailable then (env.autoPasteOk, true) else (false, false)
  | .clipboard => (env.clipboardOk, true)

/-- The candidate list built from the configured preference
(lines 74-86); any unrecognised value falls to the `else` branch. -/
def methodOrder (pref : String) : List InsertionMethod :=
  if pref = "auto" then [.auto_paste, .direct, .clipboard]
  else if pref = "direct" then [.direct, .auto_paste, .clipboard]
  else if pref = "auto_paste" then [.auto_paste, .clipboard]
  else [.clipboard]

/-- Result of one `insert_text` call: the returned method or raised
exception message, the updated injector state, and the attempt log
(method, underlying-mechanism-invoked) in order. -/
structure InsertOutcome where
  result : Except String InsertionMethod
  state : InjectorState
  attempts : List (InsertionMethod × Bool)
  deriving Repr

/-- The fallback loop of `insert_text` (lines 88-118).  The private
methods return booleans (never raise), so `last_error` stays `None` and
the exhausted-chain message renders it as such (line 116). -/
def insertLoop (st : InjectorState) (env : InjectorEnv) :
    List InsertionMethod → List (InsertionMethod × Bool) → InsertOutcome
  | [], log =>
    ⟨.error "All text insertion methods failed. Last error: None", st, log⟩
  | m :: rest, log =>
    let a := attemptMethod st env m
    if a.1 then ⟨.ok m, { st with lastMethodUsed := some m }, log ++ [(m, a.2)]⟩
    else insertLoop st env rest (log ++ [(m, a.2)])

/-- `TextInjector.insert_text` (lines 57-118).  Empty text short-circuits
to Clipboard without any attempt and without recording a last method. -/
def insert_text (st : InjectorState) (env : InjectorEnv) (text : String) :
    InsertOutcome :=
  if pyTruthy text then insertLoop st env (methodOrder st.preferredMethod) []
  else ⟨.ok .clipboard, st, []⟩

/-! ## Command Transport server (`IPCServer._handle_client`)

`ipc_server.py` lines 69-107.  A received (non-empty) payload either fails
JSON decoding or carries a command name; the handler registry maps a name
to the behaviour of one handler invocation (`none` = unregistered,
`some (.error e)` = the handler raised with message `e`, `some (.ok r)` =
it returned result `r`, the result payload abstracted as a string). -/

/-- A received request payload. -/
inductive IpcRequest where
  | malformed (raw : String)
  | request (command : String)

/-- The single response written back on a connection. -/
inductive IpcResponse where
  | success (result : String)
  | error (message : String)
  deriving Repr, DecidableEq

/-- One `_handle_client` run on a decoded-or-not request: the response
written, and whether a registered handler was invoked. -/
def handleClient (registry : String → Option (Except String String)) :
    IpcRequest → IpcResponse × Bool
  | .malformed _ => (.error "Invalid JSON", false)
  | .request cmd =>
    match registry cmd with
    | none => (.error ("Unknown command: " ++ cmd), false)
    | some (.ok r) => (.success r, true)
    | some (.error e) => (.error e, true)

/-- The accept loop over a sequence of connections: each connection gets
its own handling run, and a handler exception never stops the loop
(lines 92-97 catch it per connection). -/
def serverRun (registry : String → Option (Except String String))
    (reqs : List IpcRequest) : List IpcResponse :=
  reqs.map (fun r => (handleClient registry r).1)

/-! ## Session Orchestrator (`WhisperDaemon`)

`daemon.py` lines 27-328.  The external transcription engine is an oracle
`List Rat → Except String String`; the capture engine and the insertion
chain are the models above.  GUI signal emission is notification-only and
is tracked as an effect count. -/

/-- `SessionState` enum (daemon.py lines 27-32). -/
inductive SessionState where
  | idle
  | recording
  | processing
  deriving Repr, DecidableEq

/-- The `.value` of a `SessionState`. -/
def SessionState.value : SessionState → String
  | .idle => "idle"
  | .recording => "recording"
  | .processing => "processing"

/-- The daemon fields the command handlers mutate. -/
structure DaemonState where
  state : SessionState
  sessionStartTime : Rat
  sessionsCount : Nat
  capture : CaptureState
  injector : InjectorState
  deriving Repr, DecidableEq

/-- Daemon state right after initialisation: Idle, fresh capture engine,
injector configured with preference `pref` and probed ydotool
availability `ydo`. -/
def initDaemon (pref : String) (ydo : Bool) : DaemonState :=
  { state := .idle, sessionStartTime := 0, sessionsCount := 0,
    capture := initCapture, injector := ⟨pref, ydo, none⟩ }

/-- Environment of one `start` command: outcome of
`transcriber.reset_transcription()` and of opening the audio stream. -/
structure StartEnv where
  reset : Except String Unit
  openStream : Except String Unit

/-- The response dict of `_handle_start_command`.  Failure responses carry
only `success` and `message`. -/
structure StartResult where
  success : Bool
  message : String
  sessionId : Option String
  startTime : Option Rat
  deriving Repr, DecidableEq

/-- Collaborator invocations of one `start` command. -/
structure StartEffects where
  resetCalls : Nat
  armCalls : Nat
  showSignals : Nat
  deriving Repr, DecidableEq

/-- Everything one `start` command produces. -/
structure StartOutcome where
  daemon : DaemonState
  res : StartResult
  effects : StartEffects
  deriving Repr, DecidableEq

/-- `WhisperDaemon._handle_start_command` (lines 166-204).  Illegal
outside Idle with a message naming the current state and no side effects;
a raised collaborator call lands in the `except` branch, which resets the
state to Idle and reports the failure. -/
def handleStart (d : DaemonState) (env : StartEnv) (now : Rat) : StartOutcome :=
  if d.state = .idle then
    match env.reset with
    | .error e =>
      ⟨{ d with state := .idle },
       ⟨false, "Failed to start recording: " ++ e, none, none⟩, ⟨1, 0, 0⟩⟩
    | .ok _ =>
      let c := captureStart d.capture now env.openStream
      match c.raised with
      | some e =>
        ⟨{ d with state := .idle, capture := c.state },
         ⟨false, "Failed to start recording: " ++ e, none, none⟩, ⟨1, 1, 0⟩⟩
      | none =>
        let n := d.sessionsCount + 1
        ⟨{ d with state := .recording, capture := c.state,
                  sessionStartTime := now, sessionsCount := n },
         ⟨true, "Recording started", some ("session_" ++ toString n), some now⟩,
         ⟨1, 1, 1⟩⟩
  else
    ⟨d, ⟨false, "Cannot start: already " ++ d.state.value, none, none⟩, ⟨0, 0, 0⟩⟩

/-- Environment of one `stop` command: outcome of closing the audio
stream, the external transcription collaborator, and the underlying
delivery mechanisms of the insertion chain. -/
structure StopEnv where
  closeStream : Except String Unit
  transcribe : List Rat → Except String String
  insertEnv : InjectorEnv

/-- The response dict of `_handle_stop_command`.  Failure responses carry
only `success` and `message`; the other fields then hold their defaults. -/
structure StopResult where
  success : Bool
  message : String
  transcription : String
  duration : Rat
  insertionMethod : String
  wordCount : Nat
  deriving Repr, DecidableEq

/-- Collaborator invocations of one `stop` command. -/
structure StopEffects where
  hideSignals : Nat
  captureStopCalls : Nat
  transcribeCalls : Nat
  insertCalls : Nat
  deriving Repr, DecidableEq

/-- Everything one `stop` command produces. -/
structure StopOutcome where
  daemon : DaemonState
  res : StopResult
  effects : StopEffects

/-- A failure response of `_handle_stop_command`. -/
def stopFailure (msg : String) : StopResult :=
  ⟨false, msg, "", 0, "none", 0⟩

/-- Tail of `_handle_stop_command` (lines 236-261) once the transcription
`t` is known: compute the duration, run the insertion chain when the text
has non-whitespace content (an insertion failure is caught and the
reported method degraded to Clipboard, line 247), reset to Idle and build
the success response. -/
def stopFinish (d : DaemonState) (cap : CaptureState) (t : String)
    (tCalls : Nat) (env : StopEnv) (now : Rat) : StopOutcome :=
  let dur := now - d.sessionStartTime
  if pyTruthy t && pyTruthy t.trim then
    let io := insert_text d.injector env.insertEnv t
    let reported :=
      match io.result with
      | .ok m => m.value
      | .error _ => InsertionMethod.clipboard.value
    ⟨{ d with state := .idle, capture := cap, injector := io.state },
     ⟨true, "Recording stopped", t, dur, reported, pyWordCount t⟩,
     ⟨1, 1, tCalls, 1⟩⟩
  else
    ⟨{ d with state := .idle, capture := cap },
     ⟨true, "Recording stopped", t, dur, "none", pyWordCount t⟩,
     ⟨1, 1, tCalls, 0⟩⟩

/-- Middle of `_handle_stop_command` (lines 228-234): transcribe the
drained audio in one shot when it exceeds 8000 samples; a raised
transcription lands in the `except` branch (state to Idle, failure
response). -/
def stopWithAudio (d : DaemonState) (cap : CaptureState) (allAudio : List Rat)
    (env : StopEnv) (now : Rat) : StopOutcome :=
  if 8000 < allAudio.length then
    match env.transcribe allAudio with
    | .error e =>
      ⟨{ d with state := .idle, capture := cap },
       stopFailure ("Failed to stop recording: " ++ e), ⟨1, 1, 1, 0⟩⟩
    | .ok t => stopFinish d cap t 1 env now
  else stopFinish d cap "" 0 env now

/-- `WhisperDaemon._handle_stop_command` (lines 206-266).  Illegal outside
Recording with a fixed message and no side effects; otherwise hide the
window, move to Processing, drain the capture engine (a raised drain lands
in the `except` branch: Idle, failure response), and continue with the
audio. -/
def handleStop (d : DaemonState) (env : StopEnv) (now : Rat) : StopOutcome :=
  if d.state = .recording then
    let c := captureStop d.capture env.closeStream
    match c.2 with
    | .error e =>
      ⟨{ d with state := .idle, capture := c.1 },
       stopFailure ("Failed to stop recording: " ++ e), ⟨1, 1, 0, 0⟩⟩
    | .ok allAudio => stopWithAudio d c.1 allAudio env now
  else
    ⟨d, stopFailure "No recording in progress", ⟨0, 0, 0, 0⟩⟩

/-- One command arriving at the daemon, with the environment its
collaborators will exhibit. -/
inductive DaemonCmd where
  | start (env : StartEnv) (now : Rat)
  | stop (env : StopEnv) (now : Rat)
  | status
  | shutdown (env : StopEnv) (now : Rat)
  | guiStop (env : StopEnv) (now : Rat)

/-- The daemon state after one command: `status` only reads (lines
282-313); `shutdown` performs a `stop` first when Recording (lines
315-328); a GUI stop request is handled as a `stop` (lines 268-280). -/
def stepCmd (d : DaemonState) : DaemonCmd → DaemonState
  | .start env now => (handleStart d env now).daemon
  | .stop env now => (handleStop d env now).daemon
  | .status => d
  | .shutdown env now =>
    if d.state = .recording then (handleStop d env now).daemon else d
  | .guiStop env now => (handleStop d env now).daemon

/-- The daemon state after a sequence of commands. -/
def runCmds (d : DaemonState) (cs : List DaemonCmd) : DaemonState :=
  cs.foldl stepCmd d

deriving instance DecidableEq for Except

deriving instance DecidableEq for InsertOutcome

/-! ## Supporting lemmas -/

/-- In batch mode the audio callbacks of a running capture simply
concatenate their samples onto the buffer. -/
theorem foldl_audioCallback (chunks : List (List Rat)) :
    ∀ s : CaptureState, s.recording = true →
      chunks.foldl audioCallback s =
        { s with audioBuffer := s.audioBuffer ++ chunks.flatten } := by
  induction chunks with
  | nil => intro s _; simp
  | cons c rest ih =>
    intro s h
    have hcb : audioCallback s c = { s with audioBuffer := s.audioBuffer ++ c } := by
      simp [audioCallback, h]
    simp only [List.foldl_cons, hcb]
    rw [ih _ (by simpa using h)]
    simp

/-- A successful stream close makes `captureStop` return the buffer. -/
theorem captureStop_snd_ok (s : CaptureState) :
    (captureStop s (Except.ok ())).2 = Except.ok s.audioBuffer := by
  by_cases h : s.streamOpen = true <;> simp [captureStop, h]

/-- The tail of a successful `stop` always lands in Idle. -/
theorem stopFinish_state (d : DaemonState) (cap : CaptureState) (t : String)
    (n : Nat) (env : StopEnv) (now : Rat) :
    (stopFinish d cap t n env now).daemon.state = .idle := by
  unfold stopFinish
  split <;> rfl

/-- The transcription stage of `stop` always lands in Idle. -/
theorem stopWithAudio_state (d : DaemonState) (cap : CaptureState)
    (allAudio : List Rat) (env : StopEnv) (now : Rat) :
    (stopWithAudio d cap allAudio env now).daemon.state = .idle := by
  unfold stopWithAudio
  split
  · rcases env.transcribe allAudio with e | t
    · rfl
    · exact stopFinish_state ..
  · exact stopFinish_state ..

/-- Any `stop` attempt leaves the session state unchanged (illegal) or
Idle. -/
theorem handleStop_state (d : DaemonState) (env : StopEnv) (now : Rat) :
    (handleStop d env now).daemon.state = d.state
    ∨ (handleStop d env now).daemon.state = .idle := by
  by_cases h : d.state = .recording
  · right
    rcases h2 : (captureStop d.capture env.closeStream).2 with e | audio
    · simp [handleStop, h, h2]
    · simp [handleStop, h, h2, stopWithAudio_state]
  · left
    rw [handleStop, if_neg h]

/-- Any `start` attempt leaves the session state unchanged, Idle, or
Recording. -/
theorem handleStart_state (d : DaemonState) (env : StartEnv) (now : Rat) :
    (handleStart d env now).daemon.state = d.state
    ∨ (handleStart d env now).daemon.state = .idle
    ∨ (handleStart d env now).daemon.state = .recording := by
  by_cases h : d.state = .idle
  · rcases hr : env.reset with e | u
    · right; left; simp [handleStart, h, hr]
    · rcases hc : (captureStart d.capture now env.openStream).raised with _ | e
      · right; right; simp [handleStart, h, hr, hc]
      · right; left; simp [handleStart, h, hr, hc]
  · left
    rw [handleStart, if_neg h]

/-- One command never leaves the daemon in Processing. -/
theorem stepCmd_not_processing (d : DaemonState) (c : DaemonCmd)
    (h : d.state ≠ .processing) : (stepCmd d c).state ≠ .processing := by
  cases c with
  | start env now =>
    rcases handleStart_state d env now with h1 | h1 | h1 <;>
      simp [stepCmd, h1, h]
  | stop env now =>
    rcases handleStop_state d env now with h1 | h1 <;> simp [stepCmd, h1, h]
  | status => exact h
  | shutdown env now =>
    by_cases hr : d.state = .recording
    · rcases handleStop_state d env now with h1 | h1 <;>
        simp [stepCmd, hr, h1, h]
    · simp [stepCmd, hr, h]
  | guiStop env now =>
    rcases handleStop_state d env now with h1 | h1 <;> simp [stepCmd, h1, h]

/-- Command sequences preserve the not-Processing invariant. -/
theorem runCmds_not_processing (cs : List DaemonCmd) :
    ∀ d : DaemonState, d.state ≠ .processing →
      (runCmds d cs).state ≠ .processing := by
  induction cs with
  | nil => intro d h; exact h
  | cons c rest ih =>
    intro d h
    exact ih _ (stepCmd_not_processing d c h)

/-- Full characterisation of the fallback loop of `insert_text`: the
first candidate whose attempt reports success is returned immediately and
recorded, with every earlier (failed) attempt logged; if no candidate
succeeds the loop raises the aggregated error and leaves the injector
unchanged, having attempted every candidate. -/
theorem insertLoop_spec (st : InjectorState) (env : InjectorEnv) :
    ∀ (ms : List InsertionMethod) (log : List (InsertionMethod × Bool)),
      (∀ m, ms.find? (fun x => (attemptMethod st env x).1) = some m →
        insertLoop st env ms log =
          ⟨.ok m, { st with lastMethodUsed := some m },
           log ++ ((ms.takeWhile (fun x => !(attemptMethod st env x).1)).map
                    (fun x => (x, (attemptMethod st env x).2))
               ++ [(m, (attemptMethod st env m).2)])⟩)
      ∧ (ms.find? (fun x => (attemptMethod st env x).1) = none →
        insertLoop st env ms log =
          ⟨.error "All text insertion methods failed. Last error: None", st,
           log ++ ms.map (fun x => (x, (attemptMethod st env x).2))⟩) := by
  intro ms
  induction ms with
  | nil =>
    intro log
    refine ⟨fun m hm => by simp at hm, fun _ => by simp [insertLoop]⟩
  | cons m rest ih =>
    intro log
    by_cases hm : (attemptMethod st env m).1 = true
    · constructor
      · intro m0 hm0
        simp only [List.find?_cons, hm] at hm0
        obtain rfl : m = m0 := Option.some.inj hm0
        simp [insertLoop, hm, List.takeWhile_cons]
      · intro h0
        simp only [List.find?_cons, hm] at h0
        cases h0
    · have hmb : (attemptMethod st env m).1 = false := by
        simpa using hm
      constructor
      · intro m0 hm0
        simp only [List.find?_cons, hmb] at hm0
        have hrec := (ih (log ++ [(m, (attemptMethod st env m).2)])).1 m0 hm0
        simp only [insertLoop, hmb]
        rw [if_neg (by simp [hmb]), hrec]
        simp [List.takeWhile_cons, hmb]
      · intro h0
        simp only [List.find?_cons, hmb] at h0
        have hrec := (ih (log ++ [(m, (attemptMethod st env m).2)])).2 h0
        simp only [insertLoop, hmb]
        rw [if_neg (by simp [hmb]), hrec]
        simp

/-- The VAD loop counters over any accumulator: `frame_count` counts the
frames whose classification succeeded and `voiced_count` those classified
as speech; failing frames touch neither. -/
theorem classifyFrames_go (classify : List Int → Option Bool) :
    ∀ (frames : List (List Int)) (acc : Nat × Nat),
      frames.foldl
        (fun acc f =>
          match classify f with
          | some true => (acc.1 + 1, acc.2 + 1)
          | some false => (acc.1 + 1, acc.2)
          | none => acc) acc
      = (acc.1 + (frames.filter (fun f => (classify f).isSome)).length,
         acc.2 + (frames.filter (fun f => classify f = some true)).length) := by
  intro frames
  induction frames with
  | nil => intro acc; simp
  | cons f rest ih =>
    intro acc
    rcases hf : classify f with _ | b
    · simp only [List.foldl_cons, hf]
      rw [ih acc]
      simp [List.filter_cons, hf]
    · cases b
      · simp only [List.foldl_cons, hf]
        rw [ih (acc.1 + 1, acc.2)]
        simp only [List.filter_cons, hf, Option.isSome_some]
        simp [Prod.ext_iff]
        omega
      · simp only [List.foldl_cons, hf]
        rw [ih (acc.1 + 1, acc.2 + 1)]
        simp only [List.filter_cons, hf, Option.isSome_some]
        simp [Prod.ext_iff]
        omega

/-- `classifyFrames` in closed form. -/
theorem classifyFrames_eq (classify : List Int → Option Bool)
    (frames : List (List Int)) :
    classifyFrames classify frames =
      ((frames.filter (fun f => (classify f).isSome)).length,
       (frames.filter (fun f => classify f = some true)).length) := by
  unfold classifyFrames
  rw [classifyFrames_go]
  simp

/-- Each visited VAD frame is the `fs`-sample slice at offset `j * fs`. -/
theorem framesOf_getElem (a : List Int) (fs j : Nat)
    (hj : j < (framesOf a fs).length) :
    (framesOf a fs)[j] = (a.drop (j * fs)).take fs := by
  unfold framesOf at hj ⊢
  simp only [List.getElem_map, List.getElem_range']
  rw [Nat.zero_add, Nat.mul_comm]

/-- A chunk no longer than one frame produces no visited frames. -/
theorem numVadFrames_eq_zero (len fs : Nat) (hfs : 0 < fs) (h : len ≤ fs) :
    numVadFrames len fs = 0 := by
  unfold numVadFrames
  exact Nat.div_eq_of_lt (by omega)

/-! ## Claims -/

/-- C10: calling `AudioCapture.start()` while capture is already running
returns normally without raising and leaves the whole capture state
unchanged — buffer, start time, statistics counters and the open stream —
and no second stream is constructed. -/
theorem c10_start_while_running (s : CaptureState) (now : Rat)
    (env : Except String Unit) (h : s.recording = true) :
    captureStart s now env = ⟨s, none, false⟩ := by
  simp [captureStart, h]

/-- Witness for C10 at a concrete running capture state. -/
theorem c10_witness :
    captureStart ⟨true, [(1 : Rat), 2], 7, 3, 4, 5, true⟩ 9 (Except.ok ())
      = ⟨⟨true, [(1 : Rat), 2], 7, 3, 4, 5, true⟩, none, false⟩ :=
  c10_start_while_running _ 9 _ rfl

/-- C9: in batch mode, starting a stopped capture, delivering the sample
blocks `chunks` through the audio callback and stopping returns exactly
their concatenation, in order and without loss; a subsequent `start`
begins from an empty buffer. -/
theorem c9_batch_drain (s : CaptureState) (now now2 : Rat)
    (chunks : List (List Rat)) (env2 : Except String Unit)
    (h : s.recording = false) :
    (captureStop (chunks.foldl audioCallback (captureStart s now (Except.ok ())).state)
        (Except.ok ())).2 = Except.ok chunks.flatten
    ∧ (captureStart
        (captureStop (chunks.foldl audioCallback (captureStart s now (Except.ok ())).state)
          (Except.ok ())).1 now2 env2).state.audioBuffer = [] := by
  have h1 : (captureStart s now (Except.ok ())).state =
      { s with recording := true, audioBuffer := [], startTime := now,
               totalChunks := 0, voicedFrames := 0, totalFrames := 0,
               streamOpen := true } := by
    simp [captureStart, h]
  rw [h1, foldl_audioCallback chunks _ rfl]
  refine ⟨by simp [captureStop], ?_⟩
  rcases env2 with e | u
  · simp [captureStop, captureStart]
  · simp [captureStop, captureStart]

/-- Witness for C9: three sample blocks captured and drained verbatim. -/
theorem c9_witness :
    (captureStop
        ([[(1 : Rat), 2], [3], [4, 5]].foldl audioCallback
          (captureStart initCapture 0 (Except.ok ())).state)
        (Except.ok ())).2 = Except.ok [(1 : Rat), 2, 3, 4, 5]
    ∧ (captureStart
        (captureStop
          ([[(1 : Rat), 2], [3], [4, 5]].foldl audioCallback
            (captureStart initCapture 0 (Except.ok ())).state)
          (Except.ok ())).1 6 (Except.ok ())).state.audioBuffer = [] :=
  c9_batch_drain initCapture 0 6 [[(1 : Rat), 2], [3], [4, 5]] (Except.ok ()) rfl

/-- C8: the transport server writes exactly one response per received
request and the accept loop processes every connection; a payload that
fails to decode yields an error response without invoking any handler; an
unregistered command yields an error response naming the unknown command;
a handler exception is caught and converted to an error response carrying
the exception's message. -/
theorem c8_transport (registry : String → Option (Except String String)) :
    (∀ reqs : List IpcRequest, (serverRun registry reqs).length = reqs.length)
    ∧ (∀ raw, handleClient registry (.malformed raw)
        = (.error "Invalid JSON", false))
    ∧ (∀ cmd, registry cmd = none →
        handleClient registry (.request cmd)
          = (.error ("Unknown command: " ++ cmd), false))
    ∧ (∀ cmd e, registry cmd = some (.error e) →
        handleClient registry (.request cmd) = (.error e, true))
    ∧ (∀ cmd r, registry cmd = some (.ok r) →
        handleClient registry (.request cmd) = (.success r, true)) := by
  refine ⟨fun reqs => ?_, fun raw => rfl, fun cmd h => ?_, fun cmd e h => ?_,
    fun cmd r h => ?_⟩
  · simp [serverRun]
  · simp [handleClient, h]
  · simp [handleClient, h]
  · simp [handleClient, h]

/-- Witness for C8 over a concrete three-command registry. -/
theorem c8_witness :
    (serverRun
        (fun c => if c = "status" then some (Except.ok "snapshot")
                  else if c = "boom" then some (Except.error "kaboom") else none)
        [.malformed "not json", .request "frobnicate", .request "boom",
         .request "status"]).length = 4
    ∧ handleClient
        (fun c => if c = "status" then some (Except.ok "snapshot")
                  else if c = "boom" then some (Except.error "kaboom") else none)
        (.malformed "not json") = (.error "Invalid JSON", false)
    ∧ handleClient
        (fun c => if c = "status" then some (Except.ok "snapshot")
                  else if c = "boom" then some (Except.error "kaboom") else none)
        (.request "frobnicate") = (.error "Unknown command: frobnicate", false)
    ∧ handleClient
        (fun c => if c = "status" then some (Except.ok "snapshot")
                  else if c = "boom" then some (Except.error "kaboom") else none)
        (.request "boom") = (.error "kaboom", true)
    ∧ handleClient
        (fun c => if c = "status" then some (Except.ok "snapshot")
                  else if c = "boom" then some (Except.error "kaboom") else none)
        (.request "status") = (.success "snapshot", true) :=
  ⟨(c8_transport _).1 _, (c8_transport _).2.1 _,
   ((c8_transport _).2.2.1 "frobnicate" (by decide)).trans rfl,
   (c8_transport _).2.2.2.1 "boom" "kaboom" (by decide),
   (c8_transport _).2.2.2.2 "status" "snapshot" (by decide)⟩

/-- C7 counterexample: a `stop` issued while Idle is rejected, but its
message is the fixed string and does not name the offending state
`idle`. -/
theorem c7_counterexample :
    (handleStop (initDaemon "auto" true)
        ⟨Except.ok (), fun _ => Except.ok "text", ⟨true, true, true⟩⟩ 0).res.success
      = false
    ∧ (handleStop (initDaemon "auto" true)
        ⟨Except.ok (), fun _ => Except.ok "text", ⟨true, true, true⟩⟩ 0).res.message
      = "No recording in progress"
    ∧ ¬ ((SessionState.value (initDaemon "auto" true).state).toList <:+:
        ((handleStop (initDaemon "auto" true)
          ⟨Except.ok (), fun _ => Except.ok "text", ⟨true, true, true⟩⟩ 0).res.message).toList) :=
  ⟨rfl, rfl, by decide⟩

/-- C7 (amended): a `stop` issued in any state other than Recording
returns a structured failure with the fixed message
"No recording in progress" — which does not name the current state — and
applies no side effects: the daemon state (session fields, capture engine,
injector) is unchanged, no GUI signal is emitted, and no collaborator is
invoked. -/
theorem c7_illegal_stop (d : DaemonState) (env : StopEnv) (now : Rat)
    (h : d.state ≠ .recording) :
    handleStop d env now = ⟨d, stopFailure "No recording in progress", ⟨0, 0, 0, 0⟩⟩ := by
  simp [handleStop, h]

/-- Witness for C7 at a concrete Idle daemon. -/
theorem c7_witness :
    handleStop (initDaemon "auto" true)
        ⟨Except.ok (), fun _ => Except.ok "text", ⟨true, true, true⟩⟩ 3
      = ⟨initDaemon "auto" true, stopFailure "No recording in progress", ⟨0, 0, 0, 0⟩⟩ :=
  c7_illegal_stop _ _ 3 (by decide)

/-- C3: a successful `stop` whose drained buffer holds fewer than 8000
samples (0.5 s at 16 kHz) does not invoke the transcription collaborator,
returns an empty transcript, does not invoke the insertion chain, and
reports a word count of 0. -/
theorem c3_short_audio (d : DaemonState) (env : StopEnv) (now : Rat)
    (hs : d.state = .recording) (hc : env.closeStream = Except.ok ())
    (hlen : d.capture.audioBuffer.length < 8000) :
    (handleStop d env now).res.success = true
    ∧ (handleStop d env now).effects.transcribeCalls = 0
    ∧ (handleStop d env now).res.transcription = ""
    ∧ (handleStop d env now).effects.insertCalls = 0
    ∧ (handleStop d env now).res.wordCount = 0 := by
  rcases env with ⟨cs, tr, ie⟩
  obtain rfl : cs = Except.ok () := hc
  have h8 : ¬(8000 < d.capture.audioBuffer.length) := by omega
  simp [handleStop, hs, captureStop_snd_ok, stopWithAudio, h8, stopFinish,
    pyTruthy, pyWordCount]

/-- Witness for C3: stopping a recording with a 3-sample buffer. -/
theorem c3_witness :
    (handleStop
        ⟨.recording, 0, 1, ⟨true, [(1 : Rat), 2, 3], 0, 0, 0, 0, true⟩,
         ⟨"auto", true, none⟩⟩
        ⟨Except.ok (), fun _ => Except.ok "never consulted", ⟨true, true, true⟩⟩
        5).res.success = true
    ∧ (handleStop
        ⟨.recording, 0, 1, ⟨true, [(1 : Rat), 2, 3], 0, 0, 0, 0, true⟩,
         ⟨"auto", true, none⟩⟩
        ⟨Except.ok (), fun _ => Except.ok "never consulted", ⟨true, true, true⟩⟩
        5).effects.transcribeCalls = 0
    ∧ (handleStop
        ⟨.recording, 0, 1, ⟨true, [(1 : Rat), 2, 3], 0, 0, 0, 0, true⟩,
         ⟨"auto", true, none⟩⟩
        ⟨Except.ok (), fun _ => Except.ok "never consulted", ⟨true, true, true⟩⟩
        5).res.transcription = ""
    ∧ (handleStop
        ⟨.recording, 0, 1, ⟨true, [(1 : Rat), 2, 3], 0, 0, 0, 0, true⟩,
         ⟨"auto", true, none⟩⟩
        ⟨Except.ok (), fun _ => Except.ok "never consulted", ⟨true, true, true⟩⟩
        5).effects.insertCalls = 0
    ∧ (handleStop
        ⟨.recording, 0, 1, ⟨true, [(1 : Rat), 2, 3], 0, 0, 0, 0, true⟩,
         ⟨"auto", true, none⟩⟩
        ⟨Except.ok (), fun _ => Except.ok "never consulted", ⟨true, true, true⟩⟩
        5).res.wordCount = 0 :=
  c3_short_audio _ _ 5 rfl rfl (by decide)

/-- C2: with a healthy environment, issuing `start` twice without an
intervening `stop` yields exactly one success and one structured failure
whose message names the current state `recording`; the rejected second
`start` leaves the daemon state (state, startedAt, sessionsCount)
untouched and does not arm the Capture Engine a second time. -/
theorem c2_double_start (d : DaemonState) (env1 env2 : StartEnv) (now1 now2 : Rat)
    (h : d.state = .idle) (hr : env1.reset = Except.ok ())
    (ho : env1.openStream = Except.ok ()) :
    (handleStart d env1 now1).res.success = true
    ∧ (handleStart (handleStart d env1 now1).daemon env2 now2).res.success = false
    ∧ (handleStart (handleStart d env1 now1).daemon env2 now2).res.message
        = "Cannot start: already recording"
    ∧ (handleStart (handleStart d env1 now1).daemon env2 now2).daemon
        = (handleStart d env1 now1).daemon
    ∧ (handleStart (handleStart d env1 now1).daemon env2 now2).effects
        = ⟨0, 0, 0⟩ := by
  rcases env1 with ⟨r1, o1⟩
  obtain rfl : r1 = Except.ok () := hr
  obtain rfl : o1 = Except.ok () := ho
  have hraised : ∀ s : CaptureState,
      (captureStart s now1 (Except.ok ())).raised = none := by
    intro s
    by_cases hrec : s.recording = true <;> simp [captureStart, hrec]
  have h1 : (handleStart d ⟨Except.ok (), Except.ok ()⟩ now1).daemon.state
      = .recording ∧ (handleStart d ⟨Except.ok (), Except.ok ()⟩ now1).res.success
      = true := by
    rw [handleStart, if_pos h]
    rcases hcs : captureStart d.capture now1 (Except.ok ()) with ⟨s', r', b'⟩
    have : r' = none := by
      have := hraised d.capture
      rw [hcs] at this
      exact this
    subst this
    exact ⟨rfl, rfl⟩
  have hne : (handleStart d ⟨Except.ok (), Except.ok ()⟩ now1).daemon.state
      ≠ .idle := by
    rw [h1.1]; decide
  have h2 : handleStart (handleStart d ⟨Except.ok (), Except.ok ()⟩ now1).daemon
      env2 now2
      = ⟨(handleStart d ⟨Except.ok (), Except.ok ()⟩ now1).daemon,
         ⟨false, "Cannot start: already "
             ++ (handleStart d ⟨Except.ok (), Except.ok ()⟩ now1).daemon.state.value,
           none, none⟩, ⟨0, 0, 0⟩⟩ := by
    rw [handleStart, if_neg hne]
  refine ⟨h1.2, ?_, ?_, ?_, ?_⟩ <;> (rw [h2]; try rfl)
  all_goals rw [h1.1]
  all_goals rfl

/-- Witness for C2: double `start` from the freshly initialised daemon. -/
theorem c2_witness :
    (handleStart (initDaemon "auto" true) ⟨Except.ok (), Except.ok ()⟩ 1).res.success
      = true
    ∧ (handleStart
        (handleStart (initDaemon "auto" true) ⟨Except.ok (), Except.ok ()⟩ 1).daemon
        ⟨Except.ok (), Except.ok ()⟩ 2).res.success = false
    ∧ (handleStart
        (handleStart (initDaemon "auto" true) ⟨Except.ok (), Except.ok ()⟩ 1).daemon
        ⟨Except.ok (), Except.ok ()⟩ 2).res.message
        = "Cannot start: already recording"
    ∧ (handleStart
        (handleStart (initDaemon "auto" true) ⟨Except.ok (), Except.ok ()⟩ 1).daemon
        ⟨Except.ok (), Except.ok ()⟩ 2).daemon
        = (handleStart (initDaemon "auto" true) ⟨Except.ok (), Except.ok ()⟩ 1).daemon
    ∧ (handleStart
        (handleStart (initDaemon "auto" true) ⟨Except.ok (), Except.ok ()⟩ 1).daemon
        ⟨Except.ok (), Except.ok ()⟩ 2).effects = ⟨0, 0, 0⟩ :=
  c2_double_start (initDaemon "auto" true) ⟨Except.ok (), Except.ok ()⟩
    ⟨Except.ok (), Except.ok ()⟩ 1 2 rfl rfl rfl

/-- C1: every `stop` attempt (successful or illegal) and every failed
`start` attempt leaves the session state either unchanged (illegal
transition) or Idle, whatever the collaborators do; and along every
command sequence from the initial daemon the state is never left in
Processing after a command completes. -/
theorem c1_stop_never_processing :
    (∀ (d : DaemonState) (env : StopEnv) (now : Rat),
        (handleStop d env now).daemon.state = d.state
        ∨ (handleStop d env now).daemon.state = .idle)
    ∧ (∀ (d : DaemonState) (env : StartEnv) (now : Rat),
        (handleStart d env now).res.success = false →
          (handleStart d env now).daemon.state = d.state
          ∨ (handleStart d env now).daemon.state = .idle)
    ∧ (∀ (pref : String) (ydo : Bool) (cs : List DaemonCmd),
        (runCmds (initDaemon pref ydo) cs).state ≠ .processing) := by
  refine ⟨handleStop_state, fun d env now hf => ?_,
    fun pref ydo cs => runCmds_not_processing cs _ (by simp [initDaemon])⟩
  by_cases h : d.state = .idle
  · rcases hr : env.reset with e | u
    · right; simp [handleStart, h, hr]
    · rcases hc : (captureStart d.capture now env.openStream).raised with _ | e
      · exfalso
        rw [show (handleStart d env now).res.success = true by
          simp [handleStart, h, hr, hc]] at hf
        exact absurd hf (by decide)
      · right; simp [handleStart, h, hr, hc]
  · left
    rw [handleStart, if_neg h]

/-- Witness for C1: a concrete command sequence whose stop sees a raising
transcription collaborator, plus a concrete failed and a concrete illegal
attempt. -/
theorem c1_witness :
    ((handleStop ⟨.processing, 0, 1, initCapture, ⟨"auto", true, none⟩⟩
        ⟨Except.ok (), fun _ => Except.error "engine crashed", ⟨true, true, true⟩⟩
        2).daemon.state
      = (⟨.processing, 0, 1, initCapture, ⟨"auto", true, none⟩⟩ : DaemonState).state
    ∨ (handleStop ⟨.processing, 0, 1, initCapture, ⟨"auto", true, none⟩⟩
        ⟨Except.ok (), fun _ => Except.error "engine crashed", ⟨true, true, true⟩⟩
        2).daemon.state = .idle)
    ∧ ((handleStart ⟨.recording, 0, 1, initCapture, ⟨"auto", true, none⟩⟩
        ⟨Except.ok (), Except.ok ()⟩ 2).daemon.state
      = (⟨.recording, 0, 1, initCapture, ⟨"auto", true, none⟩⟩ : DaemonState).state
    ∨ (handleStart ⟨.recording, 0, 1, initCapture, ⟨"auto", true, none⟩⟩
        ⟨Except.ok (), Except.ok ()⟩ 2).daemon.state = .idle)
    ∧ (runCmds (initDaemon "auto" true)
        [.start ⟨Except.ok (), Except.ok ()⟩ 0,
         .stop ⟨Except.ok (), fun _ => Except.error "engine crashed",
                ⟨true, true, true⟩⟩ 1,
         .status,
         .shutdown ⟨Except.ok (), fun _ => Except.ok "", ⟨true, true, true⟩⟩ 2]).state
      ≠ .processing :=
  ⟨c1_stop_never_processing.1 _ _ 2,
   c1_stop_never_processing.2.1 _ _ 2 (by decide),
   c1_stop_never_processing.2.2 "auto" true _⟩

/-- C4: `insert_text` on non-empty text builds the candidate list from
the configured preference exactly as claimed, attempts candidates in
order, returns the first success immediately and records it as last
method used; a method whose ydotool dependency is absent counts as a
failed attempt whose underlying mechanism is never invoked; and when
every candidate fails a single aggregated error naming the recorded last
underlying failure is raised, with the injector state unchanged. -/
theorem c4_insertion_chain :
    methodOrder "auto" = [.auto_paste, .direct, .clipboard]
    ∧ methodOrder "direct" = [.direct, .auto_paste, .clipboard]
    ∧ methodOrder "auto_paste" = [.auto_paste, .clipboard]
    ∧ methodOrder "clipboard" = [.clipboard]
    ∧ (∀ (st : InjectorState) (env : InjectorEnv),
        st.ydotoolAvailable = false →
          attemptMethod st env .direct = (false, false)
          ∧ attemptMethod st env .auto_paste = (false, false))
    ∧ (∀ (st : InjectorState) (env : InjectorEnv) (text : String),
        pyTruthy text = true →
        (∀ m, (methodOrder st.preferredMethod).find?
              (fun x => (attemptMethod st env x).1) = some m →
            insert_text st env text =
              ⟨.ok m, { st with lastMethodUsed := some m },
               ((methodOrder st.preferredMethod).takeWhile
                   (fun x => !(attemptMethod st env x).1)).map
                   (fun x => (x, (attemptMethod st env x).2))
                 ++ [(m, (attemptMethod st env m).2)]⟩)
        ∧ ((methodOrder st.preferredMethod).find?
              (fun x => (attemptMethod st env x).1) = none →
            insert_text st env text =
              ⟨.error "All text insertion methods failed. Last error: None", st,
               (methodOrder st.preferredMethod).map
                 (fun x => (x, (attemptMethod st env x).2))⟩)) := by
  refine ⟨rfl, rfl, rfl, rfl, ?_, ?_⟩
  · intro st env h
    constructor <;> simp [attemptMethod, h]
  · intro st env text ht
    constructor
    · intro m hm
      have := (insertLoop_spec st env (methodOrder st.preferredMethod) []).1 m hm
      rw [insert_text, if_pos ht, this]
      simp
    · intro h0
      have := (insertLoop_spec st env (methodOrder st.preferredMethod) []).2 h0
      rw [insert_text, if_pos ht, this]
      simp

/-- Witness for C4: ydotool absent under `auto` preference — AutoPaste
and Direct count as failed attempts without their mechanisms being
invoked, and the chain falls through to Clipboard. -/
theorem c4_witness :
    insert_text ⟨"auto", false, none⟩ ⟨true, true, true⟩ "hello"
      = ⟨.ok .clipboard, ⟨"auto", false, some .clipboard⟩,
         [(.auto_paste, false), (.direct, false), (.clipboard, true)]⟩ :=
  (((c4_insertion_chain.2.2.2.2.2 ⟨"auto", false, none⟩ ⟨true, true, true⟩
      "hello" (by decide)).1 .clipboard (by decide)).trans (by decide))

/-- C5 counterexample: the chunk decision does not count per-frame
classifier failures in the denominator.  On an 11-sample chunk with
1-sample frames, where the classifier fails on nine of the ten visited
frames and reports speech on the remaining one, the code accepts (its
only counted frame is voiced) while the claimed counting rule — failures
counted as non-voiced frames — would reject (ratio 1/10 below 0.15).
Only one frame is counted although ten are visited. -/
theorem c5_counterexample :
    (containsVoice ⟨0, 0⟩
        (fun f => if f = [32767] then some true else none)
        [(1 : Rat), 0, 0, 0, 0, 0, 0, 0, 0, 0, 0] 1).1 = true
    ∧ containsVoiceSpec
        (fun f => if f = [32767] then some true else none)
        [(1 : Rat), 0, 0, 0, 0, 0, 0, 0, 0, 0, 0] 1 = false
    ∧ vadFrameCount
        (fun f => if f = [32767] then some true else none)
        [(1 : Rat), 0, 0, 0, 0, 0, 0, 0, 0, 0, 0] 1 = 1
    ∧ (framesOf
        (([(1 : Rat), 0, 0, 0, 0, 0, 0, 0, 0, 0, 0]).map toInt16) 1).length = 10 := by
  refine ⟨?_, ?_, ?_, ?_⟩ <;> decide

/-- C5 (amended): the voiced/unvoiced decision classifies exactly the
non-overlapping frames starting at multiples of the frame length strictly
below (chunk length − frame length); a per-frame classifier failure is
skipped entirely — it contributes to neither the numerator nor the
denominator of the voiced-frame ratio — and does not abort the chunk
decision; a chunk no longer than one frame, or one on which every frame
classification fails, is rejected. -/
theorem c5_frame_decision (stats : VadStats)
    (classify : List Int → Option Bool) (audio : List Rat) (fs : Nat)
    (hfs : 0 < fs) :
    containsVoice stats classify audio fs
      = (if vadFrameCount classify audio fs = 0 then false
         else decide (Rat.divInt 15 100 ≤ vadFrac classify audio fs),
         ⟨stats.totalFrames + vadFrameCount classify audio fs,
          stats.voicedFrames + vadVoicedCount classify audio fs⟩)
    ∧ vadFrameCount classify audio fs
      = ((framesOf (audio.map toInt16) fs).filter
          (fun f => (classify f).isSome)).length
    ∧ vadVoicedCount classify audio fs
      = ((framesOf (audio.map toInt16) fs).filter
          (fun f => classify f = some true)).length
    ∧ (∀ j (hj : j < (framesOf (audio.map toInt16) fs).length),
        (framesOf (audio.map toInt16) fs)[j]
          = ((audio.map toInt16).drop (j * fs)).take fs)
    ∧ (audio.length ≤ fs → (containsVoice stats classify audio fs).1 = false)
    ∧ ((∀ f ∈ framesOf (audio.map toInt16) fs, classify f = none) →
        (containsVoice stats classify audio fs).1 = false) := by
  have hmain : containsVoice stats classify audio fs
      = (if vadFrameCount classify audio fs = 0 then false
         else decide (Rat.divInt 15 100 ≤ vadFrac classify audio fs),
         ⟨stats.totalFrames + vadFrameCount classify audio fs,
          stats.voicedFrames + vadVoicedCount classify audio fs⟩) := rfl
  have hfc : vadFrameCount classify audio fs
      = ((framesOf (audio.map toInt16) fs).filter
          (fun f => (classify f).isSome)).length := by
    show (classifyFrames classify (framesOf (audio.map toInt16) fs)).1 = _
    rw [classifyFrames_eq]
  have hvc : vadVoicedCount classify audio fs
      = ((framesOf (audio.map toInt16) fs).filter
          (fun f => classify f = some true)).length := by
    show (classifyFrames classify (framesOf (audio.map toInt16) fs)).2 = _
    rw [classifyFrames_eq]
  refine ⟨hmain, hfc, hvc, framesOf_getElem _ _, ?_, ?_⟩
  · intro hlen
    have hempty : framesOf (audio.map toInt16) fs = [] := by
      unfold framesOf
      rw [show (audio.map toInt16).length = audio.length from by simp,
        numVadFrames_eq_zero _ _ hfs hlen]
      rfl
    have h0 : vadFrameCount classify audio fs = 0 := by
      rw [hfc, hempty]
      rfl
    rw [hmain]
    simp [h0]
  · intro hall
    have h0 : vadFrameCount classify audio fs = 0 := by
      rw [hfc, List.length_eq_zero, List.filter_eq_nil_iff]
      intro f hf
      simp [hall f hf]
    rw [hmain]
    simp [h0]

/-- Witness for C5: a one-sample chunk with three-sample frames is
rejected. -/
theorem c5_witness :
    (containsVoice ⟨0, 0⟩ (fun _ => some true) [(1 : Rat)] 3).1 = false :=
  (c5_frame_decision ⟨0, 0⟩ (fun _ => some true) [(1 : Rat)] 3
    (by decide)).2.2.2.2.1 (by decide)

/-- C6: the chunk acceptance decision is a monotonic threshold on the
voiced-frame ratio, independent of the Gate's lifetime counters: with any
counted frames, acceptance holds exactly when the ratio reaches 15/100, a
ratio of exactly 15/100 is accepted, and a ratio of 149/1000 is
rejected. -/
theorem c6_threshold (s1 s2 : VadStats) (classify : List Int → Option Bool)
    (audio : List Rat) (fs : Nat) :
    (containsVoice s1 classify audio fs).1 = (containsVoice s2 classify audio fs).1
    ∧ (0 < vadFrameCount classify audio fs →
        ((containsVoice s1 classify audio fs).1 = true ↔
          Rat.divInt 15 100 ≤ vadFrac classify audio fs))
    ∧ (0 < vadFrameCount classify audio fs →
        vadFrac classify audio fs = Rat.divInt 15 100 →
        (containsVoice s1 classify audio fs).1 = true)
    ∧ (vadFrac classify audio fs = Rat.divInt 149 1000 →
        (containsVoice s1 classify audio fs).1 = false) := by
  have hdec : ∀ s : VadStats, (containsVoice s classify audio fs).1
      = (if vadFrameCount classify audio fs = 0 then false
         else decide (Rat.divInt 15 100 ≤ vadFrac classify audio fs)) :=
    fun s => rfl
  refine ⟨(hdec s1).trans (hdec s2).symm, ?_, ?_, ?_⟩
  · intro hfc
    rw [hdec, if_neg (by omega)]
    simp
  · intro hfc hfr
    rw [hdec, if_neg (by omega), hfr]
    decide
  · intro hfr
    by_cases hfc : vadFrameCount classify audio fs = 0
    · rw [hdec, if_pos hfc]
    · rw [hdec, if_neg hfc, hfr]
      decide

/-- Witness for C6: a 21-sample chunk with 1-sample frames, 20 visited
frames of which exactly 3 are voiced — ratio exactly 15/100 — is
accepted, whatever the lifetime counters hold. -/
theorem c6_witness :
    (containsVoice ⟨7, 2⟩ (fun f => some (f == [32767]))
        ([(1 : Rat), 1, 1] ++ List.replicate 18 (0 : Rat)) 1).1 = true :=
  (c6_threshold ⟨7, 2⟩ ⟨0, 0⟩ (fun f => some (f == [32767]))
      ([(1 : Rat), 1, 1] ++ List.replicate 18 (0 : Rat)) 1).2.2.1
    (by decide) (by decide)

end Murmur
